import Mathlib

/-
  Verification development for the mini-cloud-resource-manager control plane.

  The definitions below are a shallow embedding of the Python sources:

  * scheduler/policies.py     : host scoring, overload and admission predicates,
                                destination selection (section "Policy engine");
  * scheduler/planner.py      : the emergency planner and its cooldown maps
                                (section "Planner");
  * controller/app/migration/api.py : the POST /migrations create operation
                                (section "Migration create");
  * controller/app/migration/tasks.py : the synchronous worker runner
                                _run_migration_sync (section "Worker");
  * controller/app/migration/orchestrator.py : progress clamping and the
                                operation polling loop (section "Progress").

  Modelling conventions: Python floats are modelled as rationals (the
  properties at stake are order/arithmetic facts that do not depend on
  rounding); Python None is Option.none and the `x or default` idiom is
  modelled by explicit truthiness helpers; SQLAlchemy tables are lists of
  rows in insertion order, `query(...).first()` is List.find?; wall-clock
  time and the advisory lock are passed as explicit parameters.
-/

namespace MiniCloud

/-- Python str.upper, as a structurally computable map over the characters
(String.toUpper itself does not reduce in the kernel). -/
def pyUpper (s : String) : String := ⟨s.data.map Char.toUpper⟩

/-- Python str.lower, as a structurally computable map over the characters. -/
def pyLower (s : String) : String := ⟨s.data.map Char.toLower⟩

/-- Python truthiness of an optional string: None and the empty string are
falsy, every other string is truthy. -/
def optTruthy : Option String → Bool
  | none => false
  | some s => s != ""

/-- Stable insertion into a sorted list: the new element goes in front of the
first element it is le-related to.  This is the insertion step of a stable
sort, matching the stability guarantee of Python list.sort. -/
def insort {α : Type} (le : α → α → Bool) (a : α) : List α → List α
  | [] => [a]
  | b :: l => if le a b then a :: b :: l else b :: insort le a l

/-- Stable sort by a boolean comparison; models Python list.sort(key=...),
which is a stable sort (a stable sort is uniquely determined by the key
order, so any stable algorithm is a faithful model). -/
def ssort {α : Type} (le : α → α → Bool) : List α → List α
  | [] => []
  | a :: l => insort le a (ssort le l)

theorem mem_insort {α : Type} (le : α → α → Bool) (a x : α) (l : List α) :
    x ∈ insort le a l ↔ x = a ∨ x ∈ l := by
  induction l with
  | nil => simp [insort]
  | cons b t ih =>
    by_cases h : le a b
    · simp [insort, h]
    · simp [insort, h, ih]
      tauto

theorem mem_ssort {α : Type} (le : α → α → Bool) (x : α) (l : List α) :
    x ∈ ssort le l ↔ x ∈ l := by
  induction l with
  | nil => simp [ssort]
  | cons a t ih => simp [ssort, mem_insort, ih]

theorem le_refl_of_total {α : Type} (le : α → α → Bool)
    (htot : ∀ a b, le a b || le b a) (a : α) : le a a = true := by
  have h := htot a a
  cases h1 : le a a
  · rw [h1] at h
    simp at h
  · rfl

theorem pairwise_insort {α : Type} (le : α → α → Bool)
    (htot : ∀ a b, le a b || le b a)
    (htrans : ∀ a b c, le a b = true → le b c = true → le a c = true)
    (a : α) : ∀ l : List α, l.Pairwise (fun x y => le x y = true) →
    (insort le a l).Pairwise (fun x y => le x y = true) := by
  intro l
  induction l with
  | nil =>
    intro _
    simp [insort]
  | cons b t ih =>
    intro hl
    rcases List.pairwise_cons.mp hl with ⟨hb, ht⟩
    by_cases hab : le a b = true
    · rw [insort, if_pos hab]
      refine List.pairwise_cons.mpr ⟨?_, hl⟩
      intro y hy
      rcases List.mem_cons.mp hy with rfl | hy
      · exact hab
      · exact htrans a b y hab (hb y hy)
    · have hba : le b a = true := by
        have h := htot a b
        cases h1 : le b a
        · cases h2 : le a b
          · rw [h1, h2] at h
            simp at h
          · exact absurd h2 hab
        · rfl
      rw [insort, if_neg hab]
      refine List.pairwise_cons.mpr ⟨?_, ih ht⟩
      intro y hy
      rcases (mem_insort le a y t).mp hy with rfl | hy
      · exact hba
      · exact hb y hy

theorem pairwise_ssort {α : Type} (le : α → α → Bool)
    (htot : ∀ a b, le a b || le b a)
    (htrans : ∀ a b c, le a b = true → le b c = true → le a c = true)
    (l : List α) :
    (ssort le l).Pairwise (fun x y => le x y = true) := by
  induction l with
  | nil => simp [ssort]
  | cons a t ih => exact pairwise_insort le htot htrans a (ssort le t) ih

/-- The head of a stable sort is le-below every element of the input list. -/
theorem ssort_head_min {α : Type} (le : α → α → Bool)
    (htot : ∀ a b, le a b || le b a)
    (htrans : ∀ a b c, le a b = true → le b c = true → le a c = true)
    (l : List α) (c : α) (rest : List α) (hs : ssort le l = c :: rest) :
    ∀ x ∈ l, le c x = true := by
  intro x hx
  have hx2 : x ∈ ssort le l := (mem_ssort le x l).mpr hx
  rw [hs] at hx2
  rcases List.mem_cons.mp hx2 with rfl | hx2
  · exact le_refl_of_total le htot x
  · have hp := pairwise_ssort le htot htrans l
    rw [hs] at hp
    exact (List.pairwise_cons.mp hp).1 x hx2

/-! ## Policy engine (scheduler/policies.py, constants from scheduler/config.py)

Configuration values are embedded at their documented defaults. -/

def W_CPU : ℚ := 6/10
def W_MEM : ℚ := 3/10
def W_LOAD : ℚ := 1/10
def HIGH_CPU_THRESHOLD : ℚ := 80
def LOW_CPU_THRESHOLD : ℚ := 60
def HIGH_MEM_THRESHOLD : ℚ := 85
def LOW_MEM_THRESHOLD : ℚ := 70

/-- scheduler/models.py Host (the fields the policy functions read).
Optional metric fields model the `(h.field or 0.0)` coalescing in
policies.py; cpu_count is a rational so that max(1.0, cpu_count) is
homogeneous. -/
structure Host where
  host_id : String
  status : Option String
  cpu_count : Option ℚ
  cpu_percent : Option ℚ
  mem_percent : Option ℚ
  load1 : Option ℚ
deriving DecidableEq

/-- policies.host_score. -/
def host_score (h : Host) : ℚ :=
  let cpu_norm := h.cpu_percent.getD 0 / 100
  let mem_norm := h.mem_percent.getD 0 / 100
  let load_norm := h.load1.getD 0 / max 1 (h.cpu_count.getD 1)
  W_CPU * cpu_norm + W_MEM * mem_norm + W_LOAD * load_norm

/-- policies.is_host_overloaded. -/
def is_host_overloaded (h : Host) : Bool :=
  h.cpu_percent.getD 0 ≥ HIGH_CPU_THRESHOLD || h.mem_percent.getD 0 ≥ HIGH_MEM_THRESHOLD

/-- policies.can_receive_vm.  The Python default vm_mem_percent_est=0.0 is
passed explicitly at call sites. -/
def can_receive_vm (h : Host) (vm_cpu_percent_est : ℚ) (vm_mem_percent_est : ℚ) : Bool :=
  let projected_cpu := h.cpu_percent.getD 0 + vm_cpu_percent_est
  let projected_mem := h.mem_percent.getD 0 + vm_mem_percent_est
  if projected_cpu ≥ LOW_CPU_THRESHOLD then false
  else if projected_mem ≥ LOW_MEM_THRESHOLD then false
  else if optTruthy h.status && pyUpper (h.status.getD "") != "UP" then false
  else true

/-- The `if exclude_host_id and h.host_id == exclude_host_id` guard of
select_best_destination, with Python truthiness on the optional id. -/
def excludedHost (exclude_host_id : Option String) (h : Host) : Bool :=
  match exclude_host_id with
  | none => false
  | some e => e != "" && h.host_id == e

/-- policies.select_best_destination: filter by exclusion and admission,
stable-sort by score ascending, return the first candidate. -/
def select_best_destination (hosts : List Host) (vm_cpu_est : ℚ)
    (exclude_host_id : Option String) : Option Host :=
  let candidates := hosts.filterMap (fun h =>
    if excludedHost exclude_host_id h then none
    else if !can_receive_vm h vm_cpu_est 0 then none
    else some (host_score h, h))
  match ssort (fun a b => a.1 ≤ b.1) candidates with
  | [] => none
  | c :: _ => some c.2

/-! ## Planner (scheduler/planner.py)

The Planner keeps Python dicts of cooldown expiries and emergency counters;
they are modelled as association lists (first binding wins, as dict lookup
is single-valued and we insert updated bindings at the front).  time.time()
is passed explicitly as `now`. -/

def MAX_EMERGENCY_MIGRATIONS_PER_HOST : Nat := 1
def MIGRATION_COOLDOWN : ℚ := 600
def HOST_COOLDOWN : ℚ := 300

/-- scheduler/models.py VM (the fields the planner reads). -/
structure SchedVM where
  vm_uuid : String
  host_id : Option String
  cpu_percent : Option ℚ
  protectedFlag : Bool
deriving DecidableEq

/-- Python dict.get. -/
def dictGet {α : Type} (m : List (String × α)) (k : String) : Option α :=
  (m.find? (fun e => e.1 == k)).map (fun e => e.2)

/-- Python dict assignment d[k] = v (new binding shadows any older one). -/
def dictSet {α : Type} (m : List (String × α)) (k : String) (v : α) :
    List (String × α) :=
  (k, v) :: m.filter (fun e => e.1 != k)

structure Planner where
  vm_cooldowns : List (String × ℚ)
  host_cooldowns : List (String × ℚ)
  emergency_migrations_per_host : List (String × Nat)
deriving DecidableEq

/-- Planner.in_vm_cooldown: Python `t and t > time.time()` — a missing or
zero expiry is falsy. -/
def Planner.in_vm_cooldown (p : Planner) (now : ℚ) (vm : SchedVM) : Bool :=
  match dictGet p.vm_cooldowns vm.vm_uuid with
  | none => false
  | some t => t != 0 && t > now

/-- Planner.in_host_cooldown. -/
def Planner.in_host_cooldown (p : Planner) (now : ℚ) (host_id : String) : Bool :=
  match dictGet p.host_cooldowns host_id with
  | none => false
  | some t => t != 0 && t > now

/-- Planner.set_vm_cooldown. -/
def Planner.set_vm_cooldown (p : Planner) (now : ℚ) (vm : SchedVM) : Planner :=
  { p with vm_cooldowns := dictSet p.vm_cooldowns vm.vm_uuid (now + MIGRATION_COOLDOWN) }

/-- Planner.set_host_cooldown. -/
def Planner.set_host_cooldown (p : Planner) (now : ℚ) (host_id : String) : Planner :=
  { p with host_cooldowns := dictSet p.host_cooldowns host_id (now + HOST_COOLDOWN) }

/-- The candidate list of plan_emergency: non-protected, non-cooldown VMs,
stable-sorted by cpu_percent descending (None as 0). -/
def emergencyCandidates (p : Planner) (now : ℚ) (vms : List SchedVM) : List SchedVM :=
  ssort (fun a b => b.cpu_percent.getD 0 ≤ a.cpu_percent.getD 0)
    (vms.filter (fun vm => !vm.protectedFlag && !p.in_vm_cooldown now vm))

/-- The `for vm in candidates[:3]` loop body of plan_emergency: the first
candidate with a valid destination yields the single proposal and the
cooldown/counter updates. -/
def planTryCandidates (p : Planner) (now : ℚ) (host_id : String) (hosts : List Host)
    (count : Nat) : List SchedVM → Planner × List (SchedVM × String)
  | [] => (p, [])
  | vm :: rest =>
    match select_best_destination hosts (vm.cpu_percent.getD 0) (some host_id) with
    | some dst =>
      let p1 := (p.set_vm_cooldown now vm).set_host_cooldown now host_id
      let newCounts := dictSet p1.emergency_migrations_per_host host_id (count + 1)
      let p2 := { p1 with emergency_migrations_per_host := newCounts }
      (p2, [(vm, dst.host_id)])
    | none => planTryCandidates p now host_id hosts count rest

/-- Planner.plan_emergency. -/
def Planner.plan_emergency (p : Planner) (now : ℚ) (alert_host : Host)
    (hosts : List Host) (vms : List SchedVM) : Planner × List (SchedVM × String) :=
  let host_id := alert_host.host_id
  if p.in_host_cooldown now host_id then (p, [])
  else
    let count := (dictGet p.emergency_migrations_per_host host_id).getD 0
    if MAX_EMERGENCY_MIGRATIONS_PER_HOST ≤ count then (p, [])
    else
      planTryCandidates p now host_id hosts count
        ((emergencyCandidates p now vms).take 3)

/-! ## Migration create (controller/app/migration/api.py, create_migration)

The database is a ControllerState of row lists in insertion order;
`query(...).first()` is List.find? over that order.  The fresh UUID the
Migration column default would generate is passed in as `newId`; the
returned Bool records whether migrate_vm_task_delay was invoked for this
request (the enqueue step). -/

structure MigrationRow where
  id : String
  vm_id : String
  source_host : String
  target_host : String
  reason : Option String
  client_request_id : Option String
  status : String
  progress : Int
deriving DecidableEq

structure VMRow where
  id : String
  xen_uuid : Option String
deriving DecidableEq

structure ControllerState where
  vms : List VMRow
  migrations : List MigrationRow
deriving DecidableEq

/-- The request body of POST /migrations (api.py MigrationCreate). -/
structure MigrationCreate where
  vm_id : Option String
  vm_uuid : Option String
  source_host : String
  target_host : String
  reason : Option String
  client_request_id : Option String
deriving DecidableEq

inductive CreateOutcome
  | httpError (statusCode : Nat) (detail : String)
  | accepted (migration_id : String) (status : String)
deriving DecidableEq

/-- api.py create_migration: resolve the VM id, apply the
client_request_id idempotency check, insert the new row, enqueue. -/
def create_migration (st : ControllerState) (payload : MigrationCreate)
    (newId : String) : CreateOutcome × ControllerState × Bool :=
  let resolved : Except (Nat × String) String :=
    match payload.vm_id with
    | some v => Except.ok v
    | none =>
      if optTruthy payload.vm_uuid then
        match st.vms.find? (fun vm => vm.xen_uuid == payload.vm_uuid) with
        | some vm => Except.ok vm.id
        | none => Except.error (400, "vm_uuid not found in controller")
      else Except.error (400, "vm_id or vm_uuid is required")
  match resolved with
  | Except.error e => (CreateOutcome.httpError e.1 e.2, st, false)
  | Except.ok vmId =>
    let idemHit : Option MigrationRow :=
      if optTruthy payload.client_request_id then
        st.migrations.find? (fun m => m.client_request_id == payload.client_request_id)
      else none
    match idemHit with
    | some existing => (CreateOutcome.accepted existing.id existing.status, st, false)
    | none =>
      let m : MigrationRow :=
        { id := newId,
          vm_id := vmId,
          source_host := payload.source_host,
          target_host := payload.target_host,
          reason := payload.reason,
          client_request_id := payload.client_request_id,
          status := "queued",
          progress := 0 }
      (CreateOutcome.accepted newId "queued",
        { st with migrations := st.migrations ++ [m] }, true)

/-! ## Worker (controller/app/migration/tasks.py, _run_migration_sync)

The runner is modelled as a function of the fetched migration row, the VM
table, the advisory-lock outcome, and the outcome of the orchestrator
phase (which in the source is exception-or-result).  The returned list is
the sequence of values assigned to migration.status, in order.  The VM
table is threaded through because neither _run_migration_sync nor
MigrationOrchestrator.run writes any VM row. -/

/-- The VM table rows visible to the worker (controller/app/models.py VM:
id and the host pointer; the model has no last_migrated_at column). -/
structure WorkerVM where
  id : String
  host_id : Option String
deriving DecidableEq

structure WorkerState where
  migration : MigrationRow
  vms : List WorkerVM
deriving DecidableEq

/-- Outcome of the orchestrator phase as seen by _run_migration_sync. -/
inductive OrchOutcome
  | initFailed
  | checkRaised
  | notEligible (reason : String)
  | runRaised (err : String)
  | runReturned (ok : Bool) (err : Option String)
deriving DecidableEq

/-- The idempotency guard of _run_migration_sync:
`if migration.status in ("running", "completed")`. -/
def workerSkips (status : String) : Bool :=
  status == "running" || status == "completed"

/-- tasks.py _run_migration_sync.  Returns the new state and the sequence
of statuses written to the migration row. -/
def run_migration_sync (s : WorkerState) (lockAcquired : Bool)
    (orch : OrchOutcome) : WorkerState × List String :=
  if !lockAcquired then (s, [])
  else if workerSkips s.migration.status then (s, [])
  else
    let m1 := { s.migration with status := "running", progress := 1 }
    match orch with
    | OrchOutcome.initFailed =>
      ({ s with migration := { m1 with status := "failed" } }, ["running", "failed"])
    | OrchOutcome.checkRaised =>
      ({ s with migration := { m1 with status := "failed" } }, ["running", "failed"])
    | OrchOutcome.notEligible _ =>
      ({ s with migration := { m1 with status := "failed" } }, ["running", "failed"])
    | OrchOutcome.runRaised _ =>
      ({ s with migration := { m1 with status := "failed" } }, ["running", "failed"])
    | OrchOutcome.runReturned ok _ =>
      if ok then
        ({ s with migration := { m1 with status := "completed", progress := 100 } },
          ["running", "completed"])
      else
        ({ s with migration := { m1 with status := "failed" } }, ["running", "failed"])

/-! ## Progress updates and polling
(controller/app/migration/orchestrator.py) -/

/-- MigrationOrchestrator._update_progress:
`self.migration.progress = max(0, min(100, int(pct)))`. -/
def update_progress (m : MigrationRow) (pct : Int) : MigrationRow :=
  { m with progress := max 0 (min 100 pct) }

/-- One JSON response of the poll loop (the fields _poll_operation reads). -/
structure PollResp where
  status : Option String
  state : Option String
  result : Option String
  progress : Option Int
  percent : Option Int
  percentage : Option Int
deriving DecidableEq

/-- Python `a or b or c` over optional strings ("" is falsy). -/
def pyOr3Str (a b c : Option String) : Option String :=
  if optTruthy a then a else if optTruthy b then b else c

/-- Python truthiness of an optional number (0 is falsy). -/
def intTruthy : Option Int → Bool
  | none => false
  | some n => n != 0

/-- Python `a or b or c` over optional numbers (0 is falsy). -/
def pyOr3Int (a b c : Option Int) : Option Int :=
  if intTruthy a then a else if intTruthy b then b else c

inductive PollResult
  | opOk
  | opFailed
  | timeout
deriving DecidableEq

/-- Lowercased status extracted by _poll_operation:
`resp.get("status") or resp.get("state") or resp.get("result")`,
then str.lower when not None. -/
def pollStatus (r : PollResp) : Option String :=
  (pyOr3Str r.status r.state r.result).map pyLower

/-- MigrationOrchestrator._poll_operation over a finite script of poll
responses (one successful GET per cycle; an exhausted script is the
timeout).  Returns the migration row, the loop outcome, and the sequence
of progress values written by _update_progress, in order. -/
def poll_operation (m : MigrationRow) :
    List PollResp → MigrationRow × PollResult × List Int
  | [] => (m, PollResult.timeout, [])
  | r :: rest =>
    let st := pollStatus r
    if st = some "done" ∨ st = some "success" ∨ st = some "ok" ∨ st = some "completed" then
      (m, PollResult.opOk, [])
    else if st = some "failed" ∨ st = some "error" ∨ st = some "aborted" then
      (m, PollResult.opFailed, [])
    else
      match pyOr3Int r.progress r.percent r.percentage with
      | some prog =>
        let m2 := update_progress m prog
        let next := poll_operation m2 rest
        (next.1, next.2.1, m2.progress :: next.2.2)
      | none => poll_operation m rest

/-! ## Claims about the create operation (C1, C7, C8, C9) -/

def c1_existing_row : MigrationRow :=
  { id := "m1", vm_id := "v1", source_host := "h1", target_host := "h2",
    reason := none, client_request_id := none, status := "queued", progress := 0 }

def c1_state : ControllerState := { vms := [], migrations := [c1_existing_row] }

def c1_payload : MigrationCreate :=
  { vm_id := some "v1", vm_uuid := none, source_host := "h1", target_host := "h2",
    reason := none, client_request_id := none }

/-- Claim C1 is false on the code: with a Migration for vm v1 already in the
non-terminal status queued, create_migration does not fail with AlreadyExists;
it accepts the request and inserts a second Migration row for the same VM. -/
theorem c1_counterexample :
    c1_existing_row.vm_id = "v1" ∧
    c1_existing_row.status = "queued" ∧
    c1_payload.vm_id = some "v1" ∧
    (create_migration c1_state c1_payload "m2").1 =
      CreateOutcome.accepted "m2" "queued" ∧
    (create_migration c1_state c1_payload "m2").2.1.migrations.length = 2 := by
  decide

/-- Claim C1 (amended): create_migration performs no duplicate-non-terminal
check at all.  Whenever the VM identifier resolves and the client_request_id
idempotency check does not hit, it unconditionally appends one new Migration
row with status queued and progress 0 — even if a non-terminal Migration for
the same vm_id already exists — and enqueues the task. -/
theorem c1_create_inserts_unconditionally
    (st : ControllerState) (payload : MigrationCreate) (newId v : String)
    (hv : payload.vm_id = some v)
    (hidem : optTruthy payload.client_request_id = false ∨
      st.migrations.find?
        (fun m => m.client_request_id == payload.client_request_id) = none) :
    create_migration st payload newId =
      (CreateOutcome.accepted newId "queued",
        { st with migrations := st.migrations ++
          [{ id := newId, vm_id := v, source_host := payload.source_host,
             target_host := payload.target_host, reason := payload.reason,
             client_request_id := payload.client_request_id,
             status := "queued", progress := 0 }] }, true) := by
  cases hop : optTruthy payload.client_request_id
  · simp [create_migration, hv, hop]
  · rcases hidem with h | h
    · rw [hop] at h
      cases h
    · simp [create_migration, hv, hop, h]

/-- Witness for C1 (amended) at the concrete counterexample state: the
second row is inserted next to the existing queued one. -/
theorem c1_create_inserts_unconditionally_witness :
    c1_payload.vm_id = some "v1" ∧
    create_migration c1_state c1_payload "m2" =
      (CreateOutcome.accepted "m2" "queued",
        { c1_state with migrations := c1_state.migrations ++
          [{ id := "m2", vm_id := "v1", source_host := "h1", target_host := "h2",
             reason := none, client_request_id := none,
             status := "queued", progress := 0 }] }, true) :=
  ⟨rfl, c1_create_inserts_unconditionally c1_state c1_payload "m2" "v1" rfl
    (Or.inl rfl)⟩

def c7_state : ControllerState := { vms := [], migrations := [] }

def c7_payload : MigrationCreate :=
  { vm_id := some "v1", vm_uuid := none, source_host := "h1", target_host := "h1",
    reason := none, client_request_id := none }

/-- Claim C7 is false on the code: a request with source_host = target_host
(and hosts that exist nowhere in the state) is not rejected — create_migration
accepts it and inserts a Migration row. -/
theorem c7_counterexample :
    c7_payload.source_host = c7_payload.target_host ∧
    (create_migration c7_state c7_payload "m1").1 =
      CreateOutcome.accepted "m1" "queued" ∧
    (create_migration c7_state c7_payload "m1").2.1.migrations.length = 1 := by
  decide

/-- Claim C7 (amended): the only validation create_migration performs is on
the VM identifier — a missing identifier or an unresolvable vm_uuid yields a
400 error with no row inserted and no enqueue; source_host and target_host
are never validated, so a request with source_host = target_host (or hosts
unknown to the controller) is accepted and a row is inserted. -/
theorem c7_create_validates_only_vm
    (st : ControllerState) (payload : MigrationCreate) (newId : String) :
    (payload.vm_id = none → optTruthy payload.vm_uuid = false →
      create_migration st payload newId =
        (CreateOutcome.httpError 400 "vm_id or vm_uuid is required", st, false)) ∧
    (payload.vm_id = none → optTruthy payload.vm_uuid = true →
      st.vms.find? (fun vm => vm.xen_uuid == payload.vm_uuid) = none →
      create_migration st payload newId =
        (CreateOutcome.httpError 400 "vm_uuid not found in controller", st, false)) ∧
    (∀ v, payload.vm_id = some v →
      optTruthy payload.client_request_id = false →
      payload.source_host = payload.target_host →
      (create_migration st payload newId).1 = CreateOutcome.accepted newId "queued" ∧
      (create_migration st payload newId).2.1.migrations.length =
        st.migrations.length + 1) := by
  refine ⟨?_, ?_, ?_⟩
  · intro h1 h2
    simp [create_migration, h1, h2]
  · intro h1 h2 h3
    simp [create_migration, h1, h2, h3]
  · intro v hv hop _
    simp [create_migration, hv, hop]

def c7w_payload : MigrationCreate :=
  { vm_id := none, vm_uuid := none, source_host := "h1", target_host := "h2",
    reason := none, client_request_id := none }

/-- Witness for C7 (amended): the missing-identifier request is rejected
with 400 and the state is unchanged. -/
theorem c7_create_validates_only_vm_witness :
    create_migration c7_state c7w_payload "m9" =
      (CreateOutcome.httpError 400 "vm_id or vm_uuid is required", c7_state, false) :=
  (c7_create_validates_only_vm c7_state c7w_payload "m9").1 rfl rfl

/-- Claim C8: two create calls with the same non-null client_request_id
return the same migration_id, the second call changes nothing and enqueues
nothing, and exactly one row with that client_request_id exists. -/
theorem c8_create_idempotent
    (st : ControllerState) (payload : MigrationCreate) (v c id1 id2 : String)
    (hv : payload.vm_id = some v)
    (hc : payload.client_request_id = some c)
    (hcne : c ≠ "")
    (hfresh : ∀ m ∈ st.migrations, m.client_request_id ≠ some c) :
    (create_migration st payload id1).1 = CreateOutcome.accepted id1 "queued" ∧
    (create_migration (create_migration st payload id1).2.1 payload id2).1 =
      CreateOutcome.accepted id1 "queued" ∧
    (create_migration (create_migration st payload id1).2.1 payload id2).2.1 =
      (create_migration st payload id1).2.1 ∧
    (create_migration (create_migration st payload id1).2.1 payload id2).2.2 = false ∧
    (create_migration st payload id1).2.1.migrations.countP
      (fun m => m.client_request_id == some c) = 1 := by
  have hopt : optTruthy payload.client_request_id = true := by
    rw [hc]
    simpa [optTruthy] using hcne
  have hpred : ∀ m : MigrationRow,
      (m.client_request_id == payload.client_request_id) =
        (m.client_request_id == some c) := by
    intro m
    rw [hc]
  have hfind : st.migrations.find?
      (fun m => m.client_request_id == payload.client_request_id) = none := by
    apply List.find?_eq_none.mpr
    intro m hm
    rw [hpred m]
    simpa using hfresh m hm
  have h1 : create_migration st payload id1 =
      (CreateOutcome.accepted id1 "queued",
        { st with migrations := st.migrations ++
          [{ id := id1, vm_id := v, source_host := payload.source_host,
             target_host := payload.target_host, reason := payload.reason,
             client_request_id := payload.client_request_id,
             status := "queued", progress := 0 }] }, true) := by
    simp [create_migration, hv, hopt, hfind]
  have hcount0 : st.migrations.countP (fun m => m.client_request_id == some c) = 0 := by
    apply List.countP_eq_zero.mpr
    intro m hm
    simpa using hfresh m hm
  rw [h1]
  refine ⟨rfl, ?_, ?_, ?_, ?_⟩
  · simp [create_migration, hv, hopt, hfind]
  · simp [create_migration, hv, hopt, hfind]
  · simp [create_migration, hv, hopt, hfind]
  · rw [List.countP_append, hcount0]
    simp [hc]

def c8_payload : MigrationCreate :=
  { vm_id := some "v1", vm_uuid := none, source_host := "h1", target_host := "h2",
    reason := none, client_request_id := some "req-1" }

def c8_state : ControllerState := { vms := [], migrations := [] }

/-- Witness for C8 at a concrete pair of create calls sharing
client_request_id "req-1". -/
theorem c8_create_idempotent_witness :
    (create_migration c8_state c8_payload "mA").1 =
      CreateOutcome.accepted "mA" "queued" ∧
    (create_migration (create_migration c8_state c8_payload "mA").2.1
      c8_payload "mB").1 = CreateOutcome.accepted "mA" "queued" ∧
    (create_migration (create_migration c8_state c8_payload "mA").2.1
      c8_payload "mB").2.1 = (create_migration c8_state c8_payload "mA").2.1 ∧
    (create_migration (create_migration c8_state c8_payload "mA").2.1
      c8_payload "mB").2.2 = false ∧
    (create_migration c8_state c8_payload "mA").2.1.migrations.countP
      (fun m => m.client_request_id == some "req-1") = 1 :=
  c8_create_idempotent c8_state c8_payload "v1" "req-1" "mA" "mB" rfl rfl
    (by decide) (by simp [c8_state])

/-- Claim C9: when the client_request_id idempotency check hits an existing
row, create_migration returns that row's id and status — whatever the
payload's vm, source_host and target_host are, and whatever (possibly
terminal) status the existing row has — with no state change and no
enqueue. -/
theorem c9_idempotency_ignores_fields
    (st : ControllerState) (payload : MigrationCreate) (newId v : String)
    (m : MigrationRow)
    (hv : payload.vm_id = some v)
    (hopt : optTruthy payload.client_request_id = true)
    (hfind : st.migrations.find?
      (fun r => r.client_request_id == payload.client_request_id) = some m) :
    create_migration st payload newId =
      (CreateOutcome.accepted m.id m.status, st, false) := by
  simp [create_migration, hv, hopt, hfind]

def c9_existing_row : MigrationRow :=
  { id := "mOld", vm_id := "vX", source_host := "hA", target_host := "hB",
    reason := none, client_request_id := some "req-9", status := "completed",
    progress := 100 }

def c9_state : ControllerState := { vms := [], migrations := [c9_existing_row] }

def c9_payload : MigrationCreate :=
  { vm_id := some "vY", vm_uuid := none, source_host := "hC", target_host := "hD",
    reason := none, client_request_id := some "req-9" }

/-- Witness for C9: the existing row is terminal (completed) and names a
different VM and different hosts than the request, yet create_migration
returns it unchanged and enqueues nothing. -/
theorem c9_idempotency_ignores_fields_witness :
    c9_existing_row.status = "completed" ∧
    c9_existing_row.vm_id ≠ "vY" ∧
    create_migration c9_state c9_payload "mNew" =
      (CreateOutcome.accepted "mOld" "completed", c9_state, false) :=
  ⟨rfl, by decide,
    c9_idempotency_ignores_fields c9_state c9_payload "mNew" "vY" c9_existing_row
      rfl rfl rfl⟩

/-! ## Claims about the worker (C2, C3) and progress updates (C6) -/

def c2_failed_migration : MigrationRow :=
  { id := "m1", vm_id := "v1", source_host := "h1", target_host := "h2",
    reason := none, client_request_id := none, status := "failed", progress := 40 }

def c2_worker_state : WorkerState := { migration := c2_failed_migration, vms := [] }

/-- Claim C2 is false on the code: the worker skips only the statuses
running and completed.  A dequeued migration in the terminal status failed
is not left untouched — it is mutated to running and then to completed, so a
terminal status changes, along an edge (queued/failed→running) that the §4.4
state machine does not contain. -/
theorem c2_counterexample :
    c2_failed_migration.status = "failed" ∧
    workerSkips "failed" = false ∧
    (run_migration_sync c2_worker_state true
      (OrchOutcome.runReturned true none)).1.migration.status = "completed" ∧
    (run_migration_sync c2_worker_state true
      (OrchOutcome.runReturned true none)).2 = ["running", "completed"] := by
  decide

/-- Claim C2 (amended): the worker returns without mutation exactly when the
lock is not acquired or the fetched status is running or completed (not for
failed or cancelled); in every other case it writes exactly the status
sequence [running, final] with final ∈ {completed, failed} — the statuses
validating and finalizing of §4.4 are never written. -/
theorem c2_worker_state_machine (s : WorkerState) (lockAcquired : Bool)
    (orch : OrchOutcome) :
    (lockAcquired = false → run_migration_sync s lockAcquired orch = (s, [])) ∧
    (workerSkips s.migration.status = true →
      run_migration_sync s lockAcquired orch = (s, [])) ∧
    (lockAcquired = true → workerSkips s.migration.status = false →
      ((run_migration_sync s lockAcquired orch).1.migration.status = "completed" ∨
        (run_migration_sync s lockAcquired orch).1.migration.status = "failed") ∧
      (run_migration_sync s lockAcquired orch).2 =
        ["running", (run_migration_sync s lockAcquired orch).1.migration.status]) := by
  refine ⟨?_, ?_, ?_⟩
  · intro h
    simp [run_migration_sync, h]
  · intro h
    cases lockAcquired <;> simp [run_migration_sync, h]
  · intro hl hs
    cases orch with
    | initFailed => simp [run_migration_sync, hl, hs]
    | checkRaised => simp [run_migration_sync, hl, hs]
    | notEligible r => simp [run_migration_sync, hl, hs]
    | runRaised e => simp [run_migration_sync, hl, hs]
    | runReturned ok err => cases ok <;> simp [run_migration_sync, hl, hs]

/-- Witness for C2 (amended) at the counterexample state: the failed
migration is re-run to completed with trace [running, completed]. -/
theorem c2_worker_state_machine_witness :
    workerSkips c2_worker_state.migration.status = false ∧
    (((run_migration_sync c2_worker_state true
        (OrchOutcome.runReturned true none)).1.migration.status = "completed" ∨
      (run_migration_sync c2_worker_state true
        (OrchOutcome.runReturned true none)).1.migration.status = "failed") ∧
      (run_migration_sync c2_worker_state true
        (OrchOutcome.runReturned true none)).2 =
        ["running", (run_migration_sync c2_worker_state true
          (OrchOutcome.runReturned true none)).1.migration.status]) :=
  ⟨by decide,
    (c2_worker_state_machine c2_worker_state true
      (OrchOutcome.runReturned true none)).2.2 rfl (by decide)⟩

def c3_migration : MigrationRow :=
  { id := "m1", vm_id := "v1", source_host := "h1", target_host := "h2",
    reason := none, client_request_id := none, status := "queued", progress := 0 }

def c3_vm : WorkerVM := { id := "v1", host_id := some "h1" }

def c3_state : WorkerState := { migration := c3_migration, vms := [c3_vm] }

/-- Claim C3 is false on the code: a migration that reaches completed leaves
the VM table untouched — the VM's host_id still equals source_host h1, not
target_host h2 (and the controller VM model has no last_migrated_at column
to set). -/
theorem c3_counterexample :
    (run_migration_sync c3_state true
      (OrchOutcome.runReturned true none)).1.migration.status = "completed" ∧
    (run_migration_sync c3_state true
      (OrchOutcome.runReturned true none)).1.vms = [c3_vm] ∧
    c3_vm.host_id = some c3_migration.source_host ∧
    c3_vm.host_id ≠ some c3_migration.target_host := by
  decide

/-- Claim C3 (amended): neither the worker nor the orchestrator phase it
drives ever writes the VM table — on completion the VM's host_id is NOT
updated to target_host (and no last_migrated_at exists to set); on failure
the VM rows are likewise unchanged, so a VM that was on source_host stays
there in every outcome. -/
theorem c3_worker_never_updates_vms (s : WorkerState) (lockAcquired : Bool)
    (orch : OrchOutcome) :
    (run_migration_sync s lockAcquired orch).1.vms = s.vms := by
  cases hl : lockAcquired
  · simp [run_migration_sync]
  · cases hs : workerSkips s.migration.status
    · cases orch with
      | initFailed => simp [run_migration_sync, hs]
      | checkRaised => simp [run_migration_sync, hs]
      | notEligible r => simp [run_migration_sync, hs]
      | runRaised e => simp [run_migration_sync, hs]
      | runReturned ok err => cases ok <;> simp [run_migration_sync, hs]
    · simp [run_migration_sync, hs]

def c6_migration : MigrationRow :=
  { id := "m1", vm_id := "v1", source_host := "h1", target_host := "h2",
    reason := none, client_request_id := none, status := "running", progress := 1 }

def c6_resp50 : PollResp :=
  { status := none, state := none, result := none,
    progress := some 50, percent := none, percentage := none }

def c6_resp30 : PollResp :=
  { status := none, state := none, result := none,
    progress := some 30, percent := none, percentage := none }

/-- Claim C6 is false on the code: _update_progress clamps but does not
enforce monotonicity, so a poll script reporting 50 then 30 makes the
written progress sequence [50, 30], which is decreasing. -/
theorem c6_counterexample :
    (poll_operation c6_migration [c6_resp50, c6_resp30]).2.2 = [50, 30] ∧
    ¬ ((50 : Int) ≤ 30) ∧
    (poll_operation c6_migration [c6_resp50, c6_resp30]).1.progress = 30 := by
  decide

/-- Every progress value written by the poll loop lies in [0, 100]. -/
theorem poll_trace_bounds (rs : List PollResp) : ∀ m : MigrationRow,
    ∀ x ∈ (poll_operation m rs).2.2, 0 ≤ x ∧ x ≤ 100 := by
  induction rs with
  | nil =>
    intro m x hx
    simp [poll_operation] at hx
  | cons r rest ih =>
    intro m x hx
    rw [poll_operation] at hx
    split at hx
    · simp at hx
    · split at hx
      · simp at hx
      · rcases hpr : pyOr3Int r.progress r.percent r.percentage with _ | prog
        · rw [hpr] at hx
          exact ih m x hx
        · rw [hpr] at hx
          simp only [List.mem_cons] at hx
          rcases hx with rfl | hx
          · exact ⟨le_max_left 0 _, max_le (by norm_num) (min_le_left _ _)⟩
          · exact ih _ x hx

/-- Claim C6 (amended): every progress value written through
_update_progress, including every value derived from a driver poll
response, is clamped into [0, 100]; but the written sequence is not forced
to be non-decreasing — a later poll response reporting a smaller value
overwrites a larger one (see the counterexample). -/
theorem c6_progress_values_clamped (m : MigrationRow) (pct : Int)
    (rs : List PollResp) :
    (0 ≤ (update_progress m pct).progress ∧
      (update_progress m pct).progress ≤ 100) ∧
    ∀ x ∈ (poll_operation m rs).2.2, 0 ≤ x ∧ x ≤ 100 :=
  ⟨⟨le_max_left 0 _, max_le (by norm_num) (min_le_left _ _)⟩,
    poll_trace_bounds rs m⟩

/-- Witness for C6 (amended): the out-of-range report 150 is clamped to
100, and the concrete written value 50 is inside [0, 100]. -/
theorem c6_progress_values_clamped_witness :
    ((0 ≤ (update_progress c6_migration 150).progress ∧
      (update_progress c6_migration 150).progress ≤ 100) ∧
    ((50 : Int) ∈ (poll_operation c6_migration [c6_resp50]).2.2 ∧
      (0 ≤ (50 : Int) ∧ (50 : Int) ≤ 100))) ∧
    (update_progress c6_migration 150).progress = 100 :=
  ⟨⟨(c6_progress_values_clamped c6_migration 150 [c6_resp50]).1,
    ⟨by decide,
      (c6_progress_values_clamped c6_migration 150 [c6_resp50]).2 50 (by decide)⟩⟩,
    by decide⟩

/-! ## Claim C10: policy treatment of absent metrics -/

theorem pyUpper_UP : pyUpper "UP" = "UP" := by decide

theorem optTruthy_UP : optTruthy (some "UP") = true := by decide

/-- A host with status UP that has never reported cpu_percent, mem_percent
or load1. -/
def unmonitoredHost (hid : String) (cc : Option ℚ) : Host :=
  { host_id := hid, status := some "UP", cpu_count := cc,
    cpu_percent := none, mem_percent := none, load1 := none }

/-- Claim C10: the policy functions coalesce absent metrics to 0, so an
unmonitored UP host scores 0, is never overloaded, admits any VM whose
estimates are below the LOW thresholds, and its score is a lower bound on
the score of every host with non-negative metrics — the most preferred
destination. -/
theorem c10_unmonitored_host_preferred (hid : String) (cc : Option ℚ) :
    host_score (unmonitoredHost hid cc) = 0 ∧
    is_host_overloaded (unmonitoredHost hid cc) = false ∧
    (∀ cpuEst memEst : ℚ, cpuEst < LOW_CPU_THRESHOLD →
      memEst < LOW_MEM_THRESHOLD →
      can_receive_vm (unmonitoredHost hid cc) cpuEst memEst = true) ∧
    (∀ h : Host, 0 ≤ h.cpu_percent.getD 0 → 0 ≤ h.mem_percent.getD 0 →
      0 ≤ h.load1.getD 0 →
      host_score (unmonitoredHost hid cc) ≤ host_score h) := by
  have hscore0 : host_score (unmonitoredHost hid cc) = 0 := by
    simp [host_score, unmonitoredHost]
  refine ⟨hscore0, ?_, ?_, ?_⟩
  · simp [is_host_overloaded, unmonitoredHost, HIGH_CPU_THRESHOLD, HIGH_MEM_THRESHOLD]
  · intro cpuEst memEst h1 h2
    simp only [can_receive_vm, unmonitoredHost, Option.getD_none, Option.getD_some,
      zero_add]
    rw [if_neg (not_le.mpr h1), if_neg (not_le.mpr h2)]
    simp [optTruthy_UP, pyUpper_UP]
  · intro h hcpu hmem hload
    rw [hscore0]
    simp only [host_score]
    have t1 : (0:ℚ) ≤ W_CPU * (h.cpu_percent.getD 0 / 100) :=
      mul_nonneg (by norm_num [W_CPU]) (div_nonneg hcpu (by norm_num))
    have t2 : (0:ℚ) ≤ W_MEM * (h.mem_percent.getD 0 / 100) :=
      mul_nonneg (by norm_num [W_MEM]) (div_nonneg hmem (by norm_num))
    have t3 : (0:ℚ) ≤ W_LOAD * (h.load1.getD 0 / max 1 (h.cpu_count.getD 1)) := by
      refine mul_nonneg (by norm_num [W_LOAD]) (div_nonneg hload ?_)
      exact le_trans zero_le_one (le_max_left 1 _)
    linarith

def c10_monitored : Host :=
  { host_id := "h1", status := some "UP", cpu_count := some 4,
    cpu_percent := some 50, mem_percent := some 50, load1 := some 1 }

/-- Witness for C10 at a concrete unmonitored host, a concrete VM estimate
below the LOW thresholds, and a concrete monitored peer it outranks. -/
theorem c10_unmonitored_host_preferred_witness :
    host_score (unmonitoredHost "h0" (some 1)) = 0 ∧
    is_host_overloaded (unmonitoredHost "h0" (some 1)) = false ∧
    ((10:ℚ) < LOW_CPU_THRESHOLD ∧ (0:ℚ) < LOW_MEM_THRESHOLD ∧
      can_receive_vm (unmonitoredHost "h0" (some 1)) 10 0 = true) ∧
    (0 ≤ c10_monitored.cpu_percent.getD 0 ∧
      host_score (unmonitoredHost "h0" (some 1)) ≤ host_score c10_monitored) :=
  ⟨(c10_unmonitored_host_preferred "h0" (some 1)).1,
    (c10_unmonitored_host_preferred "h0" (some 1)).2.1,
    ⟨by norm_num [LOW_CPU_THRESHOLD], by norm_num [LOW_MEM_THRESHOLD],
      (c10_unmonitored_host_preferred "h0" (some 1)).2.2.1 10 0
        (by norm_num [LOW_CPU_THRESHOLD]) (by norm_num [LOW_MEM_THRESHOLD])⟩,
    ⟨by norm_num [c10_monitored],
      (c10_unmonitored_host_preferred "h0" (some 1)).2.2.2 c10_monitored
        (by norm_num [c10_monitored]) (by norm_num [c10_monitored])
        (by norm_num [c10_monitored])⟩⟩

/-! ## Claim C4: destination selection -/

def c4_hostA : Host :=
  { host_id := "hA", status := some "UP", cpu_count := some 1,
    cpu_percent := some 10, mem_percent := some 10, load1 := some 0 }

def c4_hostB : Host :=
  { host_id := "hB", status := some "UP", cpu_count := some 1,
    cpu_percent := some 12, mem_percent := some 10, load1 := some 0 }

/-- Claim C4 is false on the code: select_best_destination contains no
random tie-break.  Here the two admissible candidates score within 0.05 of
each other, yet the function (a deterministic sort-then-head) returns the
strictly lowest-score host; the runner-up is never a possible result, so
the result is not "chosen randomly among the top two".  (The 0.05 random
tie-break exists only in select_least_loaded_host of
controller/app/scheduler/scheduler.py, a VM-placement helper that takes no
source host and no admission estimate.) -/
theorem c4_counterexample :
    host_score c4_hostA < host_score c4_hostB ∧
    host_score c4_hostB - host_score c4_hostA < 5/100 ∧
    can_receive_vm c4_hostB 5 0 = true ∧
    select_best_destination [c4_hostB, c4_hostA] 5 (some "hS") = some c4_hostA := by
  with_unfolding_all decide

/-- Claim C4 (amended): select_best_destination never returns the excluded
source host, never returns a host failing can_receive, and always returns
an admissible host of minimal score — deterministically (stable sort then
first element), with no random tie-break for scores within 0.05. -/
theorem c4_select_best_destination_spec (hosts : List Host) (est : ℚ)
    (src : String) (h : Host) (hsrc : src ≠ "")
    (hsel : select_best_destination hosts est (some src) = some h) :
    h ∈ hosts ∧ h.host_id ≠ src ∧ can_receive_vm h est 0 = true ∧
    ∀ h2 ∈ hosts, h2.host_id ≠ src → can_receive_vm h2 est 0 = true →
      host_score h ≤ host_score h2 := by
  have htot : ∀ a b : ℚ × Host,
      ((fun a b : ℚ × Host => decide (a.1 ≤ b.1)) a b ||
        (fun a b : ℚ × Host => decide (a.1 ≤ b.1)) b a) = true := by
    intro a b
    rcases le_total a.1 b.1 with hab | hba
    · simp [hab]
    · simp [hba]
  have htrans : ∀ a b c : ℚ × Host,
      (fun a b : ℚ × Host => decide (a.1 ≤ b.1)) a b = true →
      (fun a b : ℚ × Host => decide (a.1 ≤ b.1)) b c = true →
      (fun a b : ℚ × Host => decide (a.1 ≤ b.1)) a c = true := by
    intro a b c h1 h2
    simp only [decide_eq_true_eq] at h1 h2 ⊢
    exact le_trans h1 h2
  unfold select_best_destination at hsel
  simp only [] at hsel
  rcases hss : ssort (fun a b : ℚ × Host => a.1 ≤ b.1)
      (hosts.filterMap (fun h0 =>
        if excludedHost (some src) h0 then none
        else if !can_receive_vm h0 est 0 then none
        else some (host_score h0, h0))) with _ | ⟨c, rest⟩
  · rw [hss] at hsel
    cases hsel
  · rw [hss] at hsel
    have hch : c.2 = h := by
      simpa using hsel
    have hcmem : c ∈ hosts.filterMap (fun h0 =>
        if excludedHost (some src) h0 then none
        else if !can_receive_vm h0 est 0 then none
        else some (host_score h0, h0)) := by
      have : c ∈ ssort (fun a b : ℚ × Host => a.1 ≤ b.1)
          (hosts.filterMap (fun h0 =>
            if excludedHost (some src) h0 then none
            else if !can_receive_vm h0 est 0 then none
            else some (host_score h0, h0))) := by
        rw [hss]
        exact List.mem_cons_self c rest
      exact (mem_ssort _ c _).mp this
    rcases List.mem_filterMap.mp hcmem with ⟨a, hamem, hfa⟩
    have hexa : excludedHost (some src) a = false := by
      by_contra hne
      rw [Bool.not_eq_false] at hne
      rw [if_pos hne] at hfa
      cases hfa
    have hcra : can_receive_vm a est 0 = true := by
      by_contra hne
      rw [Bool.not_eq_true] at hne
      rw [if_neg (by simp [hexa]), if_pos (by simp [hne])] at hfa
      cases hfa
    have hcval : c = (host_score a, a) := by
      rw [if_neg (by simp [hexa]), if_neg (by simp [hcra])] at hfa
      exact (Option.some_inj.mp hfa).symm
    have hha : h = a := by
      rw [← hch, hcval]
    subst hha
    have hnotsrc : h.host_id ≠ src := by
      intro heq
      have : excludedHost (some src) h = true := by
        simp [excludedHost, heq, hsrc]
      rw [this] at hexa
      cases hexa
    refine ⟨hamem, hnotsrc, hcra, ?_⟩
    intro h2 hmem2 hnot2 hcr2
    have hf2 : (if excludedHost (some src) h2 then none
        else if !can_receive_vm h2 est 0 then none
        else some (host_score h2, h2)) = some (host_score h2, h2) := by
      have hex2 : excludedHost (some src) h2 = false := by
        simp [excludedHost, hnot2]
      rw [if_neg (by simp [hex2]), if_neg (by simp [hcr2])]
    have hmemc : (host_score h2, h2) ∈ hosts.filterMap (fun h0 =>
        if excludedHost (some src) h0 then none
        else if !can_receive_vm h0 est 0 then none
        else some (host_score h0, h0)) :=
      List.mem_filterMap.mpr ⟨h2, hmem2, hf2⟩
    have hmin := ssort_head_min (fun a b : ℚ × Host => a.1 ≤ b.1) htot htrans
      _ c rest hss (host_score h2, h2) hmemc
    have : c.1 ≤ host_score h2 := by
      simpa using hmin
    rw [hcval] at this
    exact this

/-- Witness for C4 (amended) at the two-host tie input: the returned host
hA is in the list, differs from the excluded source, is admissible, and its
score is minimal among admissible candidates. -/
theorem c4_select_best_destination_spec_witness :
    ("hS" : String) ≠ "" ∧
    (c4_hostA ∈ [c4_hostB, c4_hostA] ∧ c4_hostA.host_id ≠ "hS" ∧
      can_receive_vm c4_hostA 5 0 = true ∧
      ∀ h2 ∈ [c4_hostB, c4_hostA], h2.host_id ≠ "hS" →
        can_receive_vm h2 5 0 = true → host_score c4_hostA ≤ host_score h2) :=
  ⟨by decide,
    c4_select_best_destination_spec [c4_hostB, c4_hostA] 5 "hS" c4_hostA
      (by decide) (by with_unfolding_all decide)⟩

/-! ## Claim C5: emergency planning -/

theorem planTryCandidates_len (p : Planner) (now : ℚ) (host_id : String)
    (hosts : List Host) (count : Nat) (l : List SchedVM) :
    (planTryCandidates p now host_id hosts count l).2.length ≤ 1 := by
  induction l with
  | nil => simp [planTryCandidates]
  | cons vm rest ih =>
    rcases hsel : select_best_destination hosts (vm.cpu_percent.getD 0)
        (some host_id) with _ | dst
    · simpa [planTryCandidates, hsel] using ih
    · simp [planTryCandidates, hsel]

/-- The loop over candidates yields either nothing, or one proposal for the
first candidate that has a valid destination — every earlier candidate has
none. -/
theorem planTryCandidates_spec (p : Planner) (now : ℚ) (host_id : String)
    (hosts : List Host) (count : Nat) (l : List SchedVM) :
    (planTryCandidates p now host_id hosts count l).2 = [] ∨
    ∃ pre vm post dst, l = pre ++ vm :: post ∧
      select_best_destination hosts (vm.cpu_percent.getD 0) (some host_id) =
        some dst ∧
      (planTryCandidates p now host_id hosts count l).2 = [(vm, dst.host_id)] ∧
      ∀ c ∈ pre, select_best_destination hosts (c.cpu_percent.getD 0)
        (some host_id) = none := by
  induction l with
  | nil =>
    left
    simp [planTryCandidates]
  | cons vm rest ih =>
    rcases hsel : select_best_destination hosts (vm.cpu_percent.getD 0)
        (some host_id) with _ | dst
    · rcases ih with h | ⟨pre, vm2, post, dst, hl, hs, hres, hpre⟩
      · left
        simpa [planTryCandidates, hsel] using h
      · right
        refine ⟨vm :: pre, vm2, post, dst, ?_, hs, ?_, ?_⟩
        · rw [List.cons_append, hl]
        · simpa [planTryCandidates, hsel] using hres
        · intro c hc
          rcases List.mem_cons.mp hc with rfl | hc
          · exact hsel
          · exact hpre c hc
    · right
      refine ⟨[], vm, rest, dst, by simp, hsel, ?_, by simp⟩
      simp [planTryCandidates, hsel]

/-- Claim C5 (amended): plan_emergency returns nothing when the alert host
is in host-cooldown or its emergency counter has reached
MAX_EMERGENCY_MIGRATIONS_PER_HOST; otherwise it returns at most one
proposal, whose VM is non-protected, non-cooldown, has a valid destination,
and is the highest-cpu such VM among the TOP THREE cpu-ranked candidates
only — candidates beyond the third are never tried, even if one of them has
a valid destination (see the counterexample). -/
theorem c5_plan_emergency_spec (p : Planner) (now : ℚ) (alert_host : Host)
    (hosts : List Host) (vms : List SchedVM) :
    (p.in_host_cooldown now alert_host.host_id = true →
      p.plan_emergency now alert_host hosts vms = (p, [])) ∧
    (MAX_EMERGENCY_MIGRATIONS_PER_HOST ≤
        (dictGet p.emergency_migrations_per_host alert_host.host_id).getD 0 →
      p.plan_emergency now alert_host hosts vms = (p, [])) ∧
    (p.plan_emergency now alert_host hosts vms).2.length ≤ 1 ∧
    (∀ vm d, (p.plan_emergency now alert_host hosts vms).2 = [(vm, d)] →
      vm ∈ vms ∧ vm.protectedFlag = false ∧ p.in_vm_cooldown now vm = false ∧
      (∃ dst, select_best_destination hosts (vm.cpu_percent.getD 0)
          (some alert_host.host_id) = some dst ∧ d = dst.host_id) ∧
      (∀ c ∈ (emergencyCandidates p now vms).take 3,
        vm.cpu_percent.getD 0 < c.cpu_percent.getD 0 →
        select_best_destination hosts (c.cpu_percent.getD 0)
          (some alert_host.host_id) = none)) := by
  have htot : ∀ a b : SchedVM,
      ((fun a b : SchedVM => decide (b.cpu_percent.getD 0 ≤ a.cpu_percent.getD 0)) a b ||
        (fun a b : SchedVM => decide (b.cpu_percent.getD 0 ≤ a.cpu_percent.getD 0)) b a) = true := by
    intro a b
    rcases le_total (a.cpu_percent.getD 0) (b.cpu_percent.getD 0) with hab | hba
    · simp [hab]
    · simp [hba]
  have htrans : ∀ a b c : SchedVM,
      (fun a b : SchedVM => decide (b.cpu_percent.getD 0 ≤ a.cpu_percent.getD 0)) a b = true →
      (fun a b : SchedVM => decide (b.cpu_percent.getD 0 ≤ a.cpu_percent.getD 0)) b c = true →
      (fun a b : SchedVM => decide (b.cpu_percent.getD 0 ≤ a.cpu_percent.getD 0)) a c = true := by
    intro a b c h1 h2
    simp only [decide_eq_true_eq] at h1 h2 ⊢
    exact le_trans h2 h1
  refine ⟨?_, ?_, ?_, ?_⟩
  · intro h
    simp [Planner.plan_emergency, h]
  · intro h
    by_cases h1 : p.in_host_cooldown now alert_host.host_id = true
    · simp [Planner.plan_emergency, h1]
    · simp only [Bool.not_eq_true] at h1
      simp [Planner.plan_emergency, h1, h]
  · by_cases h1 : p.in_host_cooldown now alert_host.host_id = true
    · simp [Planner.plan_emergency, h1]
    · simp only [Bool.not_eq_true] at h1
      by_cases h2 : MAX_EMERGENCY_MIGRATIONS_PER_HOST ≤
          (dictGet p.emergency_migrations_per_host alert_host.host_id).getD 0
      · simp [Planner.plan_emergency, h1, h2]
      · have hlen := planTryCandidates_len p now alert_host.host_id hosts
          ((dictGet p.emergency_migrations_per_host alert_host.host_id).getD 0)
          ((emergencyCandidates p now vms).take 3)
        simpa [Planner.plan_emergency, h1, h2] using hlen
  · intro vm d hres
    by_cases h1 : p.in_host_cooldown now alert_host.host_id = true
    · have : (p.plan_emergency now alert_host hosts vms).2 = [] := by
        simp [Planner.plan_emergency, h1]
      rw [this] at hres
      cases hres
    · simp only [Bool.not_eq_true] at h1
      by_cases h2 : MAX_EMERGENCY_MIGRATIONS_PER_HOST ≤
          (dictGet p.emergency_migrations_per_host alert_host.host_id).getD 0
      · have : (p.plan_emergency now alert_host hosts vms).2 = [] := by
          simp [Planner.plan_emergency, h1, h2]
        rw [this] at hres
        cases hres
      · have hmain : (p.plan_emergency now alert_host hosts vms).2 =
            (planTryCandidates p now alert_host.host_id hosts
              ((dictGet p.emergency_migrations_per_host alert_host.host_id).getD 0)
              ((emergencyCandidates p now vms).take 3)).2 := by
          simp [Planner.plan_emergency, h1, h2]
        rw [hmain] at hres
        rcases planTryCandidates_spec p now alert_host.host_id hosts
            ((dictGet p.emergency_migrations_per_host alert_host.host_id).getD 0)
            ((emergencyCandidates p now vms).take 3) with
          hnil | ⟨pre, vm2, post, dst, hl, hdst, hres2, hpre⟩
        · rw [hnil] at hres
          cases hres
        · rw [hres2] at hres
          have hpair : vm2 = vm ∧ dst.host_id = d := by
            simpa [Prod.ext_iff] using hres
          rcases hpair with ⟨rfl, hd⟩
          have hvmtake : vm2 ∈ (emergencyCandidates p now vms).take 3 := by
            rw [hl]
            exact List.mem_append.mpr (Or.inr (List.mem_cons_self vm2 post))
          have hvmcand : vm2 ∈ emergencyCandidates p now vms :=
            List.mem_of_mem_take hvmtake
          have hvmfilter : vm2 ∈ vms.filter
              (fun vm => !vm.protectedFlag && !p.in_vm_cooldown now vm) :=
            (mem_ssort
              (fun a b : SchedVM => decide (b.cpu_percent.getD 0 ≤ a.cpu_percent.getD 0))
              vm2
              (vms.filter (fun vm => !vm.protectedFlag && !p.in_vm_cooldown now vm))).mp
              (by simpa [emergencyCandidates] using hvmcand)
          have hvmmem := (List.mem_filter.mp hvmfilter).1
          have hcond := (List.mem_filter.mp hvmfilter).2
          rw [Bool.and_eq_true] at hcond
          refine ⟨hvmmem, ?_, ?_, ⟨dst, hdst, hd.symm⟩, ?_⟩
          · have := hcond.1
            simpa using this
          · have := hcond.2
            simpa using this
          · intro c hc hlt
            rw [hl] at hc
            rcases List.mem_append.mp hc with hc | hc
            · exact hpre c hc
            · rcases List.mem_cons.mp hc with rfl | hc
              · exact absurd hlt (lt_irrefl _)
              · exfalso
                have hpwAll : (emergencyCandidates p now vms).Pairwise
                    (fun a b => decide (b.cpu_percent.getD 0 ≤ a.cpu_percent.getD 0) = true) := by
                  simpa [emergencyCandidates] using
                    pairwise_ssort
                      (fun a b : SchedVM => decide (b.cpu_percent.getD 0 ≤ a.cpu_percent.getD 0))
                      htot htrans
                      (vms.filter (fun vm => !vm.protectedFlag && !p.in_vm_cooldown now vm))
                have hpwTake := List.Pairwise.sublist (List.take_sublist 3 _) hpwAll
                rw [hl] at hpwTake
                have hpwSuffix :=
                  List.Pairwise.sublist (List.sublist_append_right pre (vm2 :: post)) hpwTake
                have hrel := (List.pairwise_cons.mp hpwSuffix).1 c hc
                rw [decide_eq_true_eq] at hrel
                exact absurd hlt (not_lt.mpr hrel)

def c5_planner0 : Planner :=
  { vm_cooldowns := [], host_cooldowns := [], emergency_migrations_per_host := [] }

def c5_alert : Host :=
  { host_id := "src", status := some "UP", cpu_count := some 1,
    cpu_percent := some 99, mem_percent := some 50, load1 := some 0 }

def c5_dest : Host :=
  { host_id := "dst", status := some "UP", cpu_count := some 1,
    cpu_percent := some 49, mem_percent := some 0, load1 := some 0 }

def c5_v40 : SchedVM :=
  { vm_uuid := "v40", host_id := some "src", cpu_percent := some 40,
    protectedFlag := false }

def c5_v30 : SchedVM :=
  { vm_uuid := "v30", host_id := some "src", cpu_percent := some 30,
    protectedFlag := false }

def c5_v20 : SchedVM :=
  { vm_uuid := "v20", host_id := some "src", cpu_percent := some 20,
    protectedFlag := false }

def c5_v10 : SchedVM :=
  { vm_uuid := "v10", host_id := some "src", cpu_percent := some 10,
    protectedFlag := false }

/-- Claim C5 is false on the code: plan_emergency tries only the top three
cpu-ranked candidates.  Here the host is not in cooldown, the emergency cap
is not reached, and the non-protected, non-cooldown VM v10 has a valid
destination — yet no proposal is returned, because v10 ranks fourth. -/
theorem c5_counterexample :
    c5_planner0.in_host_cooldown 0 "src" = false ∧
    (dictGet c5_planner0.emergency_migrations_per_host "src").getD 0 = 0 ∧
    c5_v10.protectedFlag = false ∧
    c5_planner0.in_vm_cooldown 0 c5_v10 = false ∧
    select_best_destination [c5_alert, c5_dest] (c5_v10.cpu_percent.getD 0)
      (some "src") = some c5_dest ∧
    (c5_planner0.plan_emergency 0 c5_alert [c5_alert, c5_dest]
      [c5_v40, c5_v30, c5_v20, c5_v10]).2 = [] := by
  with_unfolding_all decide

/-- Witness for C5 (amended): with v10 as the only candidate, the single
proposal is v10 to dst, and v10 satisfies every property of the amended
claim. -/
theorem c5_plan_emergency_spec_witness :
    (c5_planner0.plan_emergency 0 c5_alert [c5_alert, c5_dest] [c5_v10]).2 =
      [(c5_v10, "dst")] ∧
    (c5_v10 ∈ [c5_v10] ∧ c5_v10.protectedFlag = false ∧
      c5_planner0.in_vm_cooldown 0 c5_v10 = false ∧
      (∃ dst, select_best_destination [c5_alert, c5_dest]
          (c5_v10.cpu_percent.getD 0) (some c5_alert.host_id) = some dst ∧
        "dst" = dst.host_id) ∧
      (∀ c ∈ (emergencyCandidates c5_planner0 0 [c5_v10]).take 3,
        c5_v10.cpu_percent.getD 0 < c.cpu_percent.getD 0 →
        select_best_destination [c5_alert, c5_dest] (c.cpu_percent.getD 0)
          (some c5_alert.host_id) = none)) :=
  ⟨by with_unfolding_all decide,
    (c5_plan_emergency_spec c5_planner0 0 c5_alert [c5_alert, c5_dest]
      [c5_v10]).2.2.2 c5_v10 "dst" (by with_unfolding_all decide)⟩

end MiniCloud
